import Mathlib

/-!
Verification of the blog-generation Lambda (`src/lambda_function.py`).

The Python source is shallowly embedded below.  External collaborators
(the Bedrock `invoke_model` transport and the S3 `put_object` call, and
the wall clock `datetime.utcnow()`) are supplied through an explicit
environment `Env`; everything else — base64 decoding, UTF-8 decoding
with replacement characters, JSON parsing and serialization, Python
string `strip`, Python truthiness and the `or` operator — is modelled
concretely and executably, following the semantics of the CPython
standard library routines the source calls.

Conventions:
* Python strings are Lean `String`s (sequences of unicode scalar values;
  lone surrogates, which Lean `Char` cannot represent, are modelled by
  U+FFFD where CPython would keep them).
* Python `bytes` are `List Nat` with entries < 256.
* A Python exception is a `PyErr`; code that may raise returns
  `Except PyErr α`.
-/

namespace BlogGen

/-- A Python exception: either `json.JSONDecodeError` (the class caught by
`_parse_event_body`) or any other exception, identified by class name and
message.  `str(e)` is modelled by `pyStr`. -/
inductive PyErr where
  | jsonDecode (msg : String)
  | exc (name : String) (msg : String)
  deriving DecidableEq

/-- Python `str(e)` for an exception (the message text). -/
def pyStr : PyErr → String
  | .jsonDecode m => m
  | .exc _ m => m

/-- JSON-like Python values: the results of `json.loads` and the values an
event dict can hold.  Numbers are kept exactly as mantissa × 10^exp
(CPython float rounding is not modelled; no claim depends on it).
`nan`/`inf` cover the CPython-accepted non-finite literals. -/
inductive JsonValue where
  | null
  | bool (b : Bool)
  | num (mantissa : Int) (exp10 : Int)
  | str (s : String)
  | arr (items : List JsonValue)
  | obj (fields : List (String × JsonValue))
  | nan
  | inf (neg : Bool)

/-- Python truthiness (`bool(v)`) for the values of `JsonValue`. -/
def pyTruthy : JsonValue → Bool
  | .null => false
  | .bool b => b
  | .num m _ => m != 0
  | .str s => s != ""
  | .arr l => !l.isEmpty
  | .obj l => !l.isEmpty
  | .nan => true
  | .inf _ => true

/-- Python `a or b` on values: `a` if truthy, else `b`. -/
def pyOr (a b : JsonValue) : JsonValue := if pyTruthy a then a else b

/-- Python `d.get(k)`: value of the last binding of `k` (JSON object
literals with duplicate keys build a dict in which the last wins), or
`None` when absent. -/
def dictGet (d : List (String × JsonValue)) (k : String) : JsonValue :=
  (d.foldl (fun acc p => if p.1 = k then some p.2 else acc) none).getD .null

/-- Accessing the `.get` method: only dicts have it; anything else raises
`AttributeError` (uncaught in `lambda_handler`, caught by the outer
`except Exception` when it happens inside `generate_blog`). -/
def asDict (v : JsonValue) (attr : String) : Except PyErr (List (String × JsonValue)) :=
  match v with
  | .obj d => .ok d
  | _ => .error (.exc "AttributeError" ("object has no attribute " ++ attr))

/-- Accessing a `str` method such as `.strip`: only strings have it. -/
def asStr (v : JsonValue) (attr : String) : Except PyErr String :=
  match v with
  | .str s => .ok s
  | _ => .error (.exc "AttributeError" ("object has no attribute " ++ attr))

/-- The characters Python `str.strip()` removes: the documented
`str.isspace` set. -/
def pyIsSpace (c : Char) : Bool :=
  let n := c.toNat
  n = 32 || n = 9 || n = 10 || n = 13 || n = 11 || n = 12 ||
  n = 28 || n = 29 || n = 30 || n = 31 || n = 133 || n = 160 ||
  n = 5760 || (8192 ≤ n && n ≤ 8202) || n = 8232 || n = 8233 ||
  n = 8239 || n = 8287 || n = 12288

/-- Python `s.strip()`: drop leading and trailing whitespace. -/
def pyStrip (s : String) : String :=
  String.mk (((s.data.dropWhile pyIsSpace).reverse.dropWhile pyIsSpace).reverse)

/-- Python `c.isalnum()` is Unicode-aware: it consults the runtime's
Unicode character database, which is external to this repository.  The
classifier therefore enters the model through the environment
(`Env.isalnum`), and the sanitization theorems quantify over it.  This
definition is its restriction to the ASCII plane — agreeing with the
full classifier on ASCII characters — used to instantiate the concrete
fixtures, whose topics are ASCII. -/
def asciiAlnum (c : Char) : Bool :=
  (48 ≤ c.toNat && c.toNat ≤ 57) || (65 ≤ c.toNat && c.toNat ≤ 90) ||
  (97 ≤ c.toNat && c.toNat ≤ 122)

/-- A second concrete classifier for witnesses: the ASCII alphanumerics
extended with U+00E9 (é), which `str.isalnum` also accepts. -/
def asciiAlnumE (c : Char) : Bool := asciiAlnum c || c = 'é'  

/-! ### UTF-8 encoding and decoding -/

/-- UTF-8 encoding of one scalar value (`str.encode("utf-8")`). -/
def utf8EncodeChar (c : Char) : List Nat :=
  let n := c.toNat
  if n < 128 then [n]
  else if n < 2048 then [192 + n / 64, 128 + n % 64]
  else if n < 65536 then [224 + n / 4096, 128 + n / 64 % 64, 128 + n % 64]
  else [240 + n / 262144, 128 + n / 4096 % 64, 128 + n / 64 % 64, 128 + n % 64]

/-- Python `content.encode("utf-8")`. -/
def utf8Encode (s : String) : List Nat := (s.data.map utf8EncodeChar).flatten

/-- The replacement character U+FFFD. -/
def repChar : Char := '�'

/-- Byte in the UTF-8 continuation range 0x80-0xBF. -/
def isCont (b : Nat) : Bool := 128 ≤ b && b ≤ 191

/-- Python `bytes.decode("utf-8", errors="replace")`: the standard
W3C-style decoder CPython implements — each maximal subpart of an
ill-formed sequence becomes one U+FFFD; decoding never fails. -/
def utf8DecodeReplace : List Nat → List Char
  | [] => []
  | b :: rest =>
    if b < 128 then Char.ofNat b :: utf8DecodeReplace rest
    else if 194 ≤ b && b ≤ 223 then
      match rest with
      | [] => [repChar]
      | c1 :: rest2 =>
        if isCont c1 then Char.ofNat ((b - 192) * 64 + (c1 - 128)) :: utf8DecodeReplace rest2
        else repChar :: utf8DecodeReplace (c1 :: rest2)
    else if 224 ≤ b && b ≤ 239 then
      match rest with
      | [] => [repChar]
      | c1 :: rest2 =>
        let okC1 :=
          if b = 224 then 160 ≤ c1 && c1 ≤ 191
          else if b = 237 then 128 ≤ c1 && c1 ≤ 159
          else isCont c1
        if okC1 then
          match rest2 with
          | [] => [repChar]
          | c2 :: rest3 =>
            if isCont c2 then
              Char.ofNat ((b - 224) * 4096 + (c1 - 128) * 64 + (c2 - 128)) :: utf8DecodeReplace rest3
            else repChar :: utf8DecodeReplace (c2 :: rest3)
        else repChar :: utf8DecodeReplace (c1 :: rest2)
    else if 240 ≤ b && b ≤ 244 then
      match rest with
      | [] => [repChar]
      | c1 :: rest2 =>
        let okC1 :=
          if b = 240 then 144 ≤ c1 && c1 ≤ 191
          else if b = 244 then 128 ≤ c1 && c1 ≤ 143
          else isCont c1
        if okC1 then
          match rest2 with
          | [] => [repChar]
          | c2 :: rest3 =>
            if isCont c2 then
              match rest3 with
              | [] => [repChar]
              | c3 :: rest4 =>
                if isCont c3 then
                  Char.ofNat ((b - 240) * 262144 + (c1 - 128) * 4096 + (c2 - 128) * 64 + (c3 - 128)) ::
                    utf8DecodeReplace rest4
                else repChar :: utf8DecodeReplace (c3 :: rest4)
            else repChar :: utf8DecodeReplace (c2 :: rest3)
        else repChar :: utf8DecodeReplace (c1 :: rest2)
    else repChar :: utf8DecodeReplace rest

/-! ### base64 decoding

`base64.b64decode(s)` with the default `validate=False`: the input string
must be ASCII (else `ValueError`), characters outside the base64 alphabet
are skipped, `=` padding may complete a partial quad, and a leftover
partial quad at the end raises `binascii.Error` exactly as CPython's
`binascii.a2b_base64` does in non-strict mode. -/

/-- Value of a base64 alphabet character, `none` for anything to skip. -/
def b64Val (c : Char) : Option Nat :=
  let n := c.toNat
  if 65 ≤ n && n ≤ 90 then some (n - 65)
  else if 97 ≤ n && n ≤ 122 then some (n - 97 + 26)
  else if 48 ≤ n && n ≤ 57 then some (n - 48 + 52)
  else if n = 43 then some 62
  else if n = 47 then some 63
  else none

/-- The quad-filling loop of `binascii.a2b_base64` (non-strict mode).
State: remaining input, `quadPos` (0-3), the bits accumulated so far,
the current count of pending pad characters, and the output bytes. -/
def a2bLoop : List Char → Nat → Nat → Nat → List Nat → Except PyErr (List Nat)
  | [], quadPos, _, _, acc =>
    if quadPos = 0 then .ok acc
    else if quadPos = 1 then
      .error (.exc "binascii.Error"
        ("Invalid base64-encoded string: number of data characters (" ++
          toString (acc.length / 3 * 4 + 1) ++ ") cannot be 1 more than a multiple of 4"))
    else .error (.exc "binascii.Error" "Incorrect padding")
  | c :: rest, quadPos, leftchar, pads, acc =>
    if c = '=' then
      if 2 ≤ quadPos && 4 ≤ quadPos + (pads + 1) then
        if quadPos = 2 then .ok (acc ++ [leftchar / 16])
        else .ok (acc ++ [leftchar / 1024, leftchar / 4 % 256])
      else a2bLoop rest quadPos leftchar (pads + 1) acc
    else
      match b64Val c with
      | none => a2bLoop rest quadPos leftchar pads acc
      | some v =>
        match quadPos with
        | 0 => a2bLoop rest 1 v 0 acc
        | 1 => a2bLoop rest 2 (leftchar * 64 + v) 0 acc
        | 2 => a2bLoop rest 3 (leftchar * 64 + v) 0 acc
        | _ =>
          let l := leftchar * 64 + v
          a2bLoop rest 0 0 0 (acc ++ [l / 65536, l / 256 % 256, l % 256])

/-- Python `base64.b64decode(s)` on a `str` argument. -/
def b64decode (s : String) : Except PyErr (List Nat) :=
  if s.data.any (fun c => 128 ≤ c.toNat) then
    .error (.exc "ValueError" "string argument should contain only ASCII characters")
  else a2bLoop s.data 0 0 0 []

/-! ### JSON parsing (`json.loads`)

A concrete model of CPython's strict JSON scanner: JSON whitespace only,
strings with escape sequences and the control-character restriction,
numbers without leading zeros, the `NaN`/`Infinity`/`-Infinity` extras,
and an "Extra data" check for trailing input.  `json.loads` applied to a
`str` raises only `json.JSONDecodeError`, so the result type uses a bare
message for the error case. -/

/-- JSON whitespace (`' '`, `'\t'`, `'\n'`, `'\r'`). -/
def jsonWs (c : Char) : Bool := c = ' ' || c = '\t' || c = '\n' || c = '\r'

/-- Skip JSON whitespace. -/
def skipWs (cs : List Char) : List Char := cs.dropWhile jsonWs

/-- Hex digit value. -/
def hexVal (c : Char) : Option Nat :=
  let n := c.toNat
  if 48 ≤ n && n ≤ 57 then some (n - 48)
  else if 97 ≤ n && n ≤ 102 then some (n - 97 + 10)
  else if 65 ≤ n && n ≤ 70 then some (n - 65 + 10)
  else none

/-- ASCII decimal digit. -/
def isDigitChar (c : Char) : Bool := 48 ≤ c.toNat && c.toNat ≤ 57

/-- Body of a JSON string literal, after the opening quote: the decoded
characters and the input after the closing quote.  Escapes follow the
CPython decoder; surrogate pairs combine, and a lone surrogate (which
CPython keeps in the `str`) is modelled by U+FFFD. -/
def parseStringBody : Nat → List Char → Option (List Char × List Char)
  | 0, _ => none
  | _ + 1, [] => none
  | _ + 1, '"' :: rest => some ([], rest)
  | fuel + 1, '\\' :: 'u' :: h1 :: h2 :: h3 :: h4 :: rest =>
    match hexVal h1, hexVal h2, hexVal h3, hexVal h4 with
    | some a, some b, some c, some d =>
      let n := a * 4096 + b * 256 + c * 16 + d
      if 55296 ≤ n && n ≤ 56319 then
        match rest with
        | '\\' :: 'u' :: g1 :: g2 :: g3 :: g4 :: rest2 =>
          match hexVal g1, hexVal g2, hexVal g3, hexVal g4 with
          | some a2, some b2, some c2, some d2 =>
            let m := a2 * 4096 + b2 * 256 + c2 * 16 + d2
            if 56320 ≤ m && m ≤ 57343 then
              (parseStringBody fuel rest2).map
                (fun p => (Char.ofNat (65536 + (n - 55296) * 1024 + (m - 56320)) :: p.1, p.2))
            else (parseStringBody fuel rest).map (fun p => (repChar :: p.1, p.2))
          | _, _, _, _ => (parseStringBody fuel rest).map (fun p => (repChar :: p.1, p.2))
        | _ => (parseStringBody fuel rest).map (fun p => (repChar :: p.1, p.2))
      else if 56320 ≤ n && n ≤ 57343 then
        (parseStringBody fuel rest).map (fun p => (repChar :: p.1, p.2))
      else (parseStringBody fuel rest).map (fun p => (Char.ofNat n :: p.1, p.2))
    | _, _, _, _ => none
  | fuel + 1, '\\' :: c :: rest =>
    let e : Option Char :=
      if c = '"' then some '"'
      else if c = '\\' then some '\\'
      else if c = '/' then some '/'
      else if c = 'b' then some (Char.ofNat 8)
      else if c = 'f' then some (Char.ofNat 12)
      else if c = 'n' then some (Char.ofNat 10)
      else if c = 'r' then some (Char.ofNat 13)
      else if c = 't' then some (Char.ofNat 9)
      else none
    match e with
    | some ch => (parseStringBody fuel rest).map (fun p => (ch :: p.1, p.2))
    | none => none
  | fuel + 1, c :: rest =>
    if c.toNat < 32 then none
    else (parseStringBody fuel rest).map (fun p => (c :: p.1, p.2))

/-- Accumulate decimal digits into a `Nat`. -/
def digitsToNat (acc : Nat) : List Char → Nat
  | [] => acc
  | c :: r => digitsToNat (acc * 10 + (c.toNat - 48)) r

/-- Longest digit run at the front of the input. -/
def spanDigits : List Char → List Char × List Char
  | [] => ([], [])
  | c :: r =>
    if isDigitChar c then
      let p := spanDigits r
      (c :: p.1, p.2)
    else ([], c :: r)

/-- Optional fraction and exponent following the integer part of a JSON
number; partial matches (`"1."`, `"1e"`, `"1e+"`) are left unconsumed,
as with the CPython `NUMBER_RE` regular expression. -/
def parseFracExp (neg : Bool) (intVal : Nat) (cs : List Char) : JsonValue × List Char :=
  let fr : List Char × List Char :=
    match cs with
    | '.' :: r =>
      match spanDigits r with
      | ([], _) => ([], cs)
      | (ds, rest) => (ds, rest)
    | _ => ([], cs)
  let fracDs := fr.1
  let cs2 := fr.2
  let ex : Option (Bool × List Char) × List Char :=
    match cs2 with
    | e :: r =>
      if e = 'e' || e = 'E' then
        match r with
        | '+' :: r2 =>
          match spanDigits r2 with
          | ([], _) => (none, cs2)
          | (ds, rest) => (some (false, ds), rest)
        | '-' :: r2 =>
          match spanDigits r2 with
          | ([], _) => (none, cs2)
          | (ds, rest) => (some (true, ds), rest)
        | _ =>
          match spanDigits r with
          | ([], _) => (none, cs2)
          | (ds, rest) => (some (false, ds), rest)
      else (none, cs2)
    | [] => (none, cs2)
  let mant : Nat := digitsToNat intVal fracDs
  let expVal : Int :=
    match ex.1 with
    | none => 0
    | some (eneg, ds) => if eneg then -(digitsToNat 0 ds : Int) else (digitsToNat 0 ds : Int)
  let m : Int := if neg then -(mant : Int) else (mant : Int)
  (.num m (expVal - fracDs.length), ex.2)

/-- A JSON number at the front of the input (sign and first digit
included), mirroring `NUMBER_RE`: no leading zeros, fraction needs at
least one digit, exponent needs at least one digit. -/
def parseNumber (cs : List Char) : Option (JsonValue × List Char) :=
  let sp : Bool × List Char :=
    match cs with
    | '-' :: r => (true, r)
    | _ => (false, cs)
  let neg := sp.1
  match sp.2 with
  | '0' :: r => some (parseFracExp neg 0 r)
  | c :: r =>
    if isDigitChar c && c ≠ '0' then
      let p := spanDigits r
      some (parseFracExp neg (digitsToNat (c.toNat - 48) p.1) p.2)
    else none
  | [] => none

/-- Parser mode: a value, the members of an object (after `{` and any
leading whitespace, first key expected), or the items of an array. -/
inductive PMode where
  | val
  | members (acc : List (String × JsonValue))
  | items (acc : List JsonValue)

/-- The scanner.  Structural recursion on fuel so that evaluation is
kernel-reducible; `pyJsonLoads` passes fuel that dominates the nesting
depth of any input. -/
def parseF : Nat → PMode → List Char → Option (JsonValue × List Char)
  | 0, _, _ => none
  | fuel + 1, .val, cs =>
    match cs with
    | '"' :: rest => (parseStringBody fuel rest).map (fun p => (.str (String.mk p.1), p.2))
    | '{' :: rest =>
      match skipWs rest with
      | '}' :: r2 => some (.obj [], r2)
      | cs2 => parseF fuel (.members []) cs2
    | '[' :: rest =>
      match skipWs rest with
      | ']' :: r2 => some (.arr [], r2)
      | cs2 => parseF fuel (.items []) cs2
    | 't' :: 'r' :: 'u' :: 'e' :: rest => some (.bool true, rest)
    | 'f' :: 'a' :: 'l' :: 's' :: 'e' :: rest => some (.bool false, rest)
    | 'n' :: 'u' :: 'l' :: 'l' :: rest => some (.null, rest)
    | 'N' :: 'a' :: 'N' :: rest => some (.nan, rest)
    | 'I' :: 'n' :: 'f' :: 'i' :: 'n' :: 'i' :: 't' :: 'y' :: rest => some (.inf false, rest)
    | '-' :: 'I' :: 'n' :: 'f' :: 'i' :: 'n' :: 'i' :: 't' :: 'y' :: rest => some (.inf true, rest)
    | _ => parseNumber cs
  | fuel + 1, .members acc, cs =>
    match cs with
    | '"' :: rest =>
      match parseStringBody (rest.length + 1) rest with
      | none => none
      | some (key, r1) =>
        match skipWs r1 with
        | ':' :: r2 =>
          match parseF fuel .val (skipWs r2) with
          | none => none
          | some (v, r3) =>
            let acc2 := acc ++ [(String.mk key, v)]
            match skipWs r3 with
            | ',' :: r4 =>
              match skipWs r4 with
              | cs2 => parseF fuel (.members acc2) cs2
            | '}' :: r4 => some (.obj acc2, r4)
            | _ => none
        | _ => none
    | _ => none
  | fuel + 1, .items acc, cs =>
    match parseF fuel .val cs with
    | none => none
    | some (v, r1) =>
      let acc2 := acc ++ [v]
      match skipWs r1 with
      | ',' :: r2 => parseF fuel (.items acc2) (skipWs r2)
      | ']' :: r2 => some (.arr acc2, r2)
      | _ => none

/-- Python `json.loads` on a `str`: skip leading whitespace, scan one
value, skip trailing whitespace, and reject anything left over.  The
only exception class this can raise is `json.JSONDecodeError`; the
error case therefore carries just the message. -/
def pyJsonLoads (s : String) : Except String JsonValue :=
  match parseF (2 * s.length + 2) .val (skipWs s.data) with
  | none => .error "Expecting value"
  | some (v, rest) => if skipWs rest = [] then .ok v else .error "Extra data"

/-! ### JSON serialization (`json.dumps`, default options)

The program only ever dumps flat dicts whose values are strings or ints
(`_ok`'s payloads and the fixed generation-request body), so the
serializer is modelled for exactly those shapes, with the default
`ensure_ascii=True` escaping and `", "` / `": "` separators. -/

/-- Lowercase hex digit. -/
def hexDigit (n : Nat) : Char := if n < 10 then Char.ofNat (48 + n) else Char.ofNat (87 + n)

/-- Four lowercase hex digits. -/
def hex4 (n : Nat) : List Char :=
  [hexDigit (n / 4096 % 16), hexDigit (n / 256 % 16), hexDigit (n / 16 % 16), hexDigit (n % 16)]

/-- `json.dumps` escaping of one character (`ensure_ascii=True`). -/
def escChar (c : Char) : List Char :=
  if c = '"' then ['\\', '"']
  else if c = '\\' then ['\\', '\\']
  else if c = Char.ofNat 10 then ['\\', 'n']
  else if c = Char.ofNat 13 then ['\\', 'r']
  else if c = Char.ofNat 9 then ['\\', 't']
  else if c = Char.ofNat 8 then ['\\', 'b']
  else if c = Char.ofNat 12 then ['\\', 'f']
  else if 32 ≤ c.toNat && c.toNat ≤ 126 then [c]
  else if c.toNat < 65536 then '\\' :: 'u' :: hex4 c.toNat
  else
    let v := c.toNat - 65536
    ('\\' :: 'u' :: hex4 (55296 + v / 1024)) ++ ('\\' :: 'u' :: hex4 (56320 + v % 1024))

/-- `json.dumps` of a string. -/
def jsonDumpString (s : String) : String :=
  "\"" ++ String.mk ((s.data.map escChar).flatten) ++ "\""

/-- The value types that appear in the dicts this program dumps. -/
inductive DumpVal where
  | str (s : String)
  | int (n : Int)
  deriving DecidableEq

/-- `json.dumps` of one payload value. -/
def jsonDumpVal : DumpVal → String
  | .str s => jsonDumpString s
  | .int n => toString n

/-- `json.dumps` of a flat dict, default separators, insertion order. -/
def jsonDumpsObj (fields : List (String × DumpVal)) : String :=
  "\x7b" ++
    String.intercalate ", " (fields.map (fun p => jsonDumpString p.1 ++ ": " ++ jsonDumpVal p.2)) ++
    "\x7d"

/-! ### Configuration and the response builder -/

/-- `os.environ.get("AWS_REGION", "us-east-1")` — modelled at its default. -/
def AWS_REGION : String := "us-east-1"

/-- `os.environ.get("BEDROCK_MODEL_ID", ...)` — modelled at its default. -/
def BEDROCK_MODEL_ID : String := "us.meta.llama3-1-8b-instruct-v1:0"

/-- `os.environ.get("BLOG_S3_BUCKET", "bedrock-demo-blogs")` — modelled at
its default. -/
def S3_BUCKET : String := "bedrock-demo-blogs"

/-- The response envelope returned by `lambda_handler`. -/
structure Response where
  statusCode : Nat
  headers : List (String × String)
  body : String
  deriving DecidableEq

/-- `_ok(body, status)`: the source's optional `headers` argument is never
passed by any caller, so it is modelled at its default `None`, making the
headers dict exactly `{"Content-Type": "application/json"}`. -/
def _ok (body : List (String × DumpVal)) (status : Nat) : Response :=
  { statusCode := status
    headers := [("Content-Type", "application/json")]
    body := jsonDumpsObj body }

/-- `_error(message, status)`. -/
def _error (message : String) (status : Nat) : Response :=
  _ok [("error", .str message)] status

/-! ### The environment: external collaborators -/

/-- A `datetime.utcnow()` result, to second resolution (the only fields
`strftime("%Y-%m-%dT%H-%M-%SZ")` reads).  `datetime` guarantees
`1 ≤ year ≤ 9999` and in-range calendar fields. -/
structure PyDateTime where
  year : Nat
  month : Nat
  day : Nat
  hour : Nat
  minute : Nat
  second : Nat

/-- A decimal digit character of `n % 10`. -/
def digitChar (n : Nat) : Char :=
  match n % 10 with
  | 0 => '0' | 1 => '1' | 2 => '2' | 3 => '3' | 4 => '4'
  | 5 => '5' | 6 => '6' | 7 => '7' | 8 => '8' | _ => '9'

/-- `%02d`: two-digit zero-padded decimal (full number beyond 99). -/
def pad2 (n : Nat) : String :=
  if n ≤ 99 then String.mk [digitChar (n / 10), digitChar n] else toString n

/-- `%04d`: four-digit zero-padded decimal (full number beyond 9999). -/
def pad4 (n : Nat) : String :=
  if n ≤ 9999 then String.mk [digitChar (n / 1000), digitChar (n / 100), digitChar (n / 10), digitChar n]
  else toString n

/-- `datetime.utcnow().strftime("%Y-%m-%dT%H-%M-%SZ")`. -/
def formatTs (dt : PyDateTime) : String :=
  pad4 dt.year ++ "-" ++ pad2 dt.month ++ "-" ++ pad2 dt.day ++ "T" ++
    pad2 dt.hour ++ "-" ++ pad2 dt.minute ++ "-" ++ pad2 dt.second ++ "Z"

/-- The external collaborators of one invocation:
* `invokeModel body modelId accept contentType` — the
  `bedrock-runtime` `invoke_model` call; on success the payload read from
  the response's streaming body, decoded as the text `json.loads` will
  see; on failure the raised exception (`ClientError`, timeouts, … — the
  transport's internal retries are below this interface).
* `putObject bucket key body contentType` — the S3 `put_object` call.
* `utcnow` — the current UTC wall-clock time.
* `isalnum` — the `str.isalnum` character classifier, backed by the
  Python runtime's Unicode character database (Unicode categories
  L*/N*); faithful instantiations never accept a whitespace
  character. -/
structure Env where
  invokeModel : String → String → String → String → Except PyErr String
  putObject : String → String → List Nat → String → Except PyErr Unit
  utcnow : PyDateTime
  isalnum : Char → Bool

/-! ### `generate_blog` and `save_blog_to_s3` -/

/-- The `json.dumps(body)` sent to `invoke_model`: the dict literal
`{"prompt": prompt, "max_gen_len": 512, "temperature": 0.5, "top_p": 0.9}`
in insertion order (`repr(0.5) = "0.5"`, `repr(0.9) = "0.9"`). -/
def genRequestBody (topic : String) : String :=
  let prompt :=
    "<s>[INST]Human: Write a ~250-word blog on the topic: " ++ topic ++ ". Assistant:[/INST]"
  "\x7b\"prompt\": " ++ jsonDumpString prompt ++
    ", \"max_gen_len\": 512, \"temperature\": 0.5, \"top_p\": 0.9\x7d"

/-- `generate_blog(topic)` (src/lambda_function.py lines 37-63): build the
prompt, invoke the model, `json.loads` the raw payload — a failure here is
a `JSONDecodeError` that propagates to the caller — then
`data.get("generation") or ""` and `.strip()`.  An empty or missing
generation field yields `""`, not an exception. -/
def generate_blog (env : Env) (topic : String) : Except PyErr String := do
  let raw ← env.invokeModel (genRequestBody topic) BEDROCK_MODEL_ID
    "application/json" "application/json"
  let data ← match pyJsonLoads raw with
    | .ok v => Except.ok v
    | .error m => Except.error (PyErr.jsonDecode m)
  let d ← asDict data "get"
  let text ← asStr (pyOr (dictGet d "generation") (.str "")) "strip"
  pure (pyStrip text)

/-- `save_blog_to_s3(key, content)` (lines 66-73). -/
def save_blog_to_s3 (env : Env) (key : String) (content : String) : Except PyErr Unit :=
  env.putObject S3_BUCKET key (utf8Encode content) "text/plain; charset=utf-8"

/-! ### `_parse_event_body` -/

/-- An inbound event envelope: the two keys the handler reads.  `none`
means the key is absent from the event dict. -/
structure Event where
  body : Option JsonValue
  isBase64Encoded : Option JsonValue

/-- Truthiness of `event.get("isBase64Encoded")` (`None` when absent). -/
def pyTruthyOpt : Option JsonValue → Bool
  | none => false
  | some v => pyTruthy v

/-- Lines 86-89: `json.loads(body_str)` with `except json.JSONDecodeError:
return {}`.  `json.loads` on a `str` raises only `JSONDecodeError`, so the
`except` clause unconditionally turns parse failure into `{}`. -/
def parseBodyText (t : String) : Except PyErr JsonValue :=
  match pyJsonLoads t with
  | .ok v => .ok v
  | .error _ => .ok (.obj [])

/-- The base64 branch of lines 84-89: `b64decode(body_str)` — NOT inside
the `try`, so its exceptions propagate — then
`.decode("utf-8", errors="replace")` and the guarded `json.loads`. -/
def b64ParsePath (s : String) : Except PyErr JsonValue :=
  match b64decode s with
  | .error e => .error e
  | .ok bytes => parseBodyText (String.mk (utf8DecodeReplace bytes))

/-- `_parse_event_body(event)` (lines 76-89).  A non-string body raises
`TypeError` from `b64decode` or `json.loads`, uncaught. -/
def _parse_event_body (ev : Event) : Except PyErr JsonValue :=
  match ev.body with
  | none => .ok (.obj [])
  | some .null => .ok (.obj [])
  | some (.str s) =>
    if pyTruthyOpt ev.isBase64Encoded then b64ParsePath s else parseBodyText s
  | some _ =>
    if pyTruthyOpt ev.isBase64Encoded then
      .error (.exc "TypeError" "argument should be a bytes-like object or ASCII string")
    else
      .error (.exc "TypeError" "the JSON object must be str, bytes or bytearray")

/-! ### `lambda_handler` -/

/-- Python slicing `s[:n]` on a string: the first `n` code points. -/
def pySlice (s : String) (n : Nat) : String := String.mk (s.data.take n)

/-- Line 124: `blog_text[:200] + ("..." if len(blog_text) > 200 else "")`. -/
def previewOf (s : String) : String :=
  pySlice s 200 ++ (if 200 < s.length then "..." else "")

/-- Line 111: `"".join(c for c in topic if c.isalnum() or c in ("-", "_")).strip() or "blog"`,
with `c.isalnum()` supplied as the runtime classifier `isalnum`. -/
def safeTopic (isalnum : Char → Bool) (topic : String) : String :=
  let j := pyStrip (String.mk (topic.data.filter (fun c => isalnum c || c = '-' || c = '_')))
  if j = "" then "blog" else j

/-- Line 112: `f"blogs/{safe_topic}_{ts}.txt"`. -/
def makeS3Key (isalnum : Char → Bool) (topic : String) (ts : String) : String :=
  "blogs/" ++ safeTopic isalnum topic ++ "_" ++ ts ++ ".txt"

/-- Lines 97-125 of `lambda_handler`, after the topic has been extracted
and stripped: the blank-topic 400, the guarded generation call, the
empty-content 502, key construction, the guarded S3 write, and the
success payload.  Every branch returns a `Response`; all exceptions from
the two external calls are caught at their call sites. -/
def handleTopic (env : Env) (topic : String) : Response :=
  if topic = "" then _error "Missing required field \x27blogstopic\x27 in request body." 400
  else
    match generate_blog env topic with
    | .error e => _error ("Error generating blog: " ++ pyStr e) 502
    | .ok blog_text =>
      if blog_text = "" then _error "Model returned empty content." 502
      else
        let ts := formatTs env.utcnow
        let s3_key := makeS3Key env.isalnum topic ts
        match save_blog_to_s3 env s3_key blog_text with
        | .error e => _error ("Failed to save to S3: " ++ pyStr e) 502
        | .ok _ =>
          _ok [("message", .str "Blog generated and saved."),
               ("s3_bucket", .str S3_BUCKET),
               ("s3_key", .str s3_key),
               ("length_chars", .int blog_text.length),
               ("preview", .str (previewOf blog_text))] 200

/-- The value selected by line 95's `or` chain:
`body.get("blogstopic") or body.get("topic") or ""`. -/
def chosenTopicVal (d : List (String × JsonValue)) : JsonValue :=
  pyOr (dictGet d "blogstopic") (pyOr (dictGet d "topic") (.str ""))

/-- Lines 94-95: `body = _parse_event_body(event)` and
`topic = (body.get("blogstopic") or body.get("topic") or "").strip()`.
These lines run outside any `try`, so their exceptions propagate out of
`lambda_handler`; they consult only the event, never the backends. -/
def extractedTopic (ev : Event) : Except PyErr String := do
  let body ← _parse_event_body ev
  let d ← asDict body "get"
  let s ← asStr (chosenTopicVal d) "strip"
  pure (pyStrip s)

/-- `lambda_handler(event, context)` (lines 92-125). -/
def lambda_handler (env : Env) (event : Event) (_context : Unit) : Except PyErr Response :=
  match extractedTopic event with
  | .error e => .error e
  | .ok topic => .ok (handleTopic env topic)

/-! ### Claim-side predicates -/

/-- A response envelope is well-formed: it carries the
`Content-Type: application/json` header and a JSON-object body. -/
def wellFormed (r : Response) : Prop :=
  r.headers = [("Content-Type", "application/json")] ∧
  ∃ fields, r.body = jsonDumpsObj fields

/-- Whether a value is a Python `str`. -/
def isStrVal : JsonValue → Bool
  | .str _ => true
  | _ => false

/-- The text `_parse_event_body` will hand to `json.loads`, when that
point is reached without an exception: the body itself, or its base64
decoding (UTF-8 with replacement characters) when the flag is truthy;
`none` when the body is absent/null/non-string or base64 decoding
raises. -/
def decodedText (ev : Event) : Option String :=
  match ev.body with
  | some (.str s) =>
    if pyTruthyOpt ev.isBase64Encoded then
      match b64decode s with
      | .ok bytes => some (String.mk (utf8DecodeReplace bytes))
      | .error _ => none
    else some s
  | _ => none

/-- Events on which `lambda_handler` completes without an uncaught
exception: body absent/null, or a string body that (after a successful
base64 decode when the flag is truthy) either fails to parse as JSON or
parses to an object whose selected topic value is a string. -/
def safeEvent (ev : Event) : Bool :=
  match ev.body with
  | none => true
  | some .null => true
  | some (.str _) =>
    match decodedText ev with
    | none => false
    | some t =>
      match pyJsonLoads t with
      | .error _ => true
      | .ok (.obj d) => isStrVal (chosenTopicVal d)
      | .ok _ => false
  | some _ => false

/-- `needle` occurs as a substring of `hay`. -/
def containsSub (hay needle : String) : Prop :=
  ∃ pre post, hay = pre ++ needle ++ post

/-- Claim-side sanitizer of C8: keep exactly the alphanumeric, hyphen and
underscore characters (no truncation); if nothing survives, the literal
fallback `"blog"`. -/
def specSanitize (isalnum : Char → Bool) (topic : String) : String :=
  let kept := topic.data.filter (fun c => isalnum c || c = '-' || c = '_')
  if kept = [] then "blog" else String.mk kept

/-- Claim-side timestamp shape of C8: `YYYY-MM-DDTHH-MM-SSZ`. -/
def isTsFormat (s : String) : Bool :=
  match s.data with
  | [y1, y2, y3, y4, s1, mo1, mo2, s2, d1, d2, s3, h1, h2, s4, mi1, mi2, s5, e1, e2, z] =>
    isDigitChar y1 && isDigitChar y2 && isDigitChar y3 && isDigitChar y4 &&
    s1 = '-' && isDigitChar mo1 && isDigitChar mo2 && s2 = '-' &&
    isDigitChar d1 && isDigitChar d2 && s3 = 'T' &&
    isDigitChar h1 && isDigitChar h2 && s4 = '-' &&
    isDigitChar mi1 && isDigitChar mi2 && s5 = '-' &&
    isDigitChar e1 && isDigitChar e2 && z = 'Z'
  | _ => false

/-! ### Concrete fixtures for witnesses and counterexamples -/

/-- A fixed clock value for concrete runs. -/
def dt0 : PyDateTime := ⟨2025, 10, 12, 8, 30, 0⟩

/-- A benign environment: the generation backend returns the envelope
`{"generation": "A short text about coffee."}` and the storage write
succeeds. -/
def env0 : Env :=
  { invokeModel := fun _ _ _ _ => .ok "\x7b\"generation\": \"A short text about coffee.\"\x7d"
    putObject := fun _ _ _ _ => .ok ()
    utcnow := dt0
    isalnum := asciiAlnum }

/-- An environment whose generation call raises a transport error and
whose storage write also fails. -/
def envGenFail : Env :=
  { invokeModel := fun _ _ _ _ => .error (.exc "ClientError" "connect timeout")
    putObject := fun _ _ _ _ => .error (.exc "ClientError" "s3 down")
    utcnow := dt0
    isalnum := asciiAlnum }

/-- An environment where generation succeeds but the storage write
raises. -/
def envPutFail : Env :=
  { invokeModel := fun _ _ _ _ => .ok "\x7b\"generation\": \"A short text about coffee.\"\x7d"
    putObject := fun _ _ _ _ => .error (.exc "ClientError" "access denied")
    utcnow := dt0
    isalnum := asciiAlnum }

/-- An environment whose generation backend returns a whitespace-only
generation field. -/
def envEmptyGen : Env :=
  { invokeModel := fun _ _ _ _ => .ok "\x7b\"generation\": \"   \"\x7d"
    putObject := fun _ _ _ _ => .ok ()
    utcnow := dt0
    isalnum := asciiAlnum }

/-- The C3 end-to-end input event: body `{"blogstopic": "Coffee!!"}`. -/
def evC3 : Event := ⟨some (.str "\x7b\"blogstopic\": \"Coffee!!\"\x7d"), none⟩

/-- The response the code actually produces for `evC3` under `env0`. -/
def respC3 : Response :=
  _ok [("message", .str "Blog generated and saved."),
       ("s3_bucket", .str S3_BUCKET),
       ("s3_key", .str "blogs/Coffee_2025-10-12T08-30-00Z.txt"),
       ("length_chars", .int 26),
       ("preview", .str "A short text about coffee.")] 200

/-! ### Helper lemmas -/

/-- Every `_ok` result is a well-formed envelope. -/
theorem wellFormed_ok (fields : List (String × DumpVal)) (status : Nat) :
    wellFormed (_ok fields status) :=
  ⟨rfl, ⟨fields, rfl⟩⟩

/-- Reduction of `Except` bind on a success value. -/
theorem exceptBind_ok {α β : Type} (a : α) (f : α → Except PyErr β) :
    (Except.ok a : Except PyErr α) >>= f = f a := rfl

/-- Reduction of `Except` map on a success value. -/
theorem exceptMap_ok {α β : Type} (a : α) (f : α → β) :
    (f <$> (Except.ok a : Except PyErr α) : Except PyErr β) = .ok (f a) := rfl

/-- `.get` on a dict succeeds. -/
theorem asDict_obj (d : List (String × JsonValue)) (a : String) : asDict (.obj d) a = .ok d := rfl

/-- A `str` method on a string succeeds. -/
theorem asStr_str (s : String) (a : String) : asStr (.str s) a = .ok s := rfl

/-- Every branch of the post-extraction pipeline produces a well-formed
envelope: all exceptions from the two external calls are caught at their
call sites and turned into `_error` responses. -/
theorem handleTopic_wellFormed (env : Env) (t : String) : wellFormed (handleTopic env t) := by
  by_cases h1 : t = ""
  · simp only [handleTopic, if_pos h1]
    exact wellFormed_ok _ _
  · match hg : generate_blog env t with
    | .error e =>
      simp only [handleTopic, if_neg h1, hg]
      exact wellFormed_ok _ _
    | .ok bt =>
      by_cases h2 : bt = ""
      · simp only [handleTopic, if_neg h1, hg, if_pos h2]
        exact wellFormed_ok _ _
      · match hs : save_blog_to_s3 env (makeS3Key env.isalnum t (formatTs env.utcnow)) bt with
        | .error e =>
          simp only [handleTopic, if_neg h1, hg, if_neg h2, hs]
          exact wellFormed_ok _ _
        | .ok u =>
          simp only [handleTopic, if_neg h1, hg, if_neg h2, hs]
          exact wellFormed_ok _ _

/-- When `decodedText` yields a text, `_parse_event_body` parses exactly
that text under the guarded `json.loads`. -/
theorem parse_eq_of_decodedText (ev : Event) (t : String) (hd : decodedText ev = some t) :
    _parse_event_body ev = parseBodyText t := by
  obtain ⟨b, flag⟩ := ev
  match b with
  | none => simp [decodedText] at hd
  | some .null => simp [decodedText] at hd
  | some (.bool x) => simp [decodedText] at hd
  | some (.num x y) => simp [decodedText] at hd
  | some (.arr x) => simp [decodedText] at hd
  | some (.obj x) => simp [decodedText] at hd
  | some .nan => simp [decodedText] at hd
  | some (.inf x) => simp [decodedText] at hd
  | some (.str s) =>
    simp only [decodedText] at hd
    simp only [_parse_event_body]
    by_cases hf : pyTruthyOpt flag
    · rw [if_pos hf] at hd
      rw [if_pos hf]
      unfold b64ParsePath
      match hb : b64decode s with
      | .error e =>
        rw [hb] at hd
        exact absurd hd (by simp)
      | .ok bytes =>
        rw [hb] at hd
        have hd2 : String.mk (utf8DecodeReplace bytes) = t := by simpa using hd
        show parseBodyText (String.mk (utf8DecodeReplace bytes)) = parseBodyText t
        exact congrArg parseBodyText hd2
    · rw [if_neg hf] at hd
      rw [if_neg hf]
      simp only [Option.some.injEq] at hd
      rw [hd]

/-- A parse failure makes `_parse_event_body` return the empty dict. -/
theorem parseBodyText_empty_of_error (t : String) (m : String)
    (h : pyJsonLoads t = .error m) : parseBodyText t = .ok (.obj []) := by
  unfold parseBodyText
  rw [h]

/-- On a safe event, topic extraction succeeds. -/
theorem extractedTopic_ok_of_safe (ev : Event) (h : safeEvent ev = true) :
    ∃ t, extractedTopic ev = .ok t := by
  obtain ⟨b, flag⟩ := ev
  match b with
  | none => exact ⟨"", rfl⟩
  | some .null => exact ⟨"", rfl⟩
  | some (.bool x) => simp [safeEvent] at h
  | some (.num x y) => simp [safeEvent] at h
  | some (.arr x) => simp [safeEvent] at h
  | some (.obj x) => simp [safeEvent] at h
  | some .nan => simp [safeEvent] at h
  | some (.inf x) => simp [safeEvent] at h
  | some (.str s) =>
    match hd : decodedText ⟨some (.str s), flag⟩ with
    | none => simp [safeEvent, hd] at h
    | some t =>
      simp only [safeEvent, hd] at h
      have hp := parse_eq_of_decodedText _ t hd
      match hl : pyJsonLoads t with
      | .error m =>
        refine ⟨"", ?_⟩
        have he : _parse_event_body ⟨some (.str s), flag⟩ = .ok (.obj []) := by
          rw [hp]; exact parseBodyText_empty_of_error t m hl
        unfold extractedTopic
        rw [he]
        rfl
      | .ok (.obj d) =>
        simp only [hl] at h
        have hpb : parseBodyText t = .ok (.obj d) := by unfold parseBodyText; rw [hl]
        match hc : chosenTopicVal d with
        | .str c =>
          refine ⟨pyStrip c, ?_⟩
          unfold extractedTopic
          rw [hp, hpb]
          simp only [exceptBind_ok, asDict_obj, hc, asStr_str, exceptMap_ok]
          rfl
        | .null => rw [hc] at h; simp [isStrVal] at h
        | .bool x => rw [hc] at h; simp [isStrVal] at h
        | .num x y => rw [hc] at h; simp [isStrVal] at h
        | .arr x => rw [hc] at h; simp [isStrVal] at h
        | .obj x => rw [hc] at h; simp [isStrVal] at h
        | .nan => rw [hc] at h; simp [isStrVal] at h
        | .inf x => rw [hc] at h; simp [isStrVal] at h
      | .ok .null => simp only [hl] at h; exact Bool.noConfusion h
      | .ok (.bool x) => simp only [hl] at h; exact Bool.noConfusion h
      | .ok (.num x y) => simp only [hl] at h; exact Bool.noConfusion h
      | .ok (.str x) => simp only [hl] at h; exact Bool.noConfusion h
      | .ok (.arr x) => simp only [hl] at h; exact Bool.noConfusion h
      | .ok .nan => simp only [hl] at h; exact Bool.noConfusion h
      | .ok (.inf x) => simp only [hl] at h; exact Bool.noConfusion h

/-! ### Claim C1 -/

/-- C1, counterexample: the claim asserts that an event with
`isBase64Encoded` set and a body that is not valid base64 still gets a
response envelope.  In the code, `b64decode` runs outside the `try`
block, so for the event `{"body": "a", "isBase64Encoded": true}` the
`binascii.Error` it raises propagates past the handler boundary instead
of becoming a response. -/
theorem claim1_counterexample :
    lambda_handler env0 ⟨some (.str "a"), some (.bool true)⟩ () =
      .error (.exc "binascii.Error"
        "Invalid base64-encoded string: number of data characters (1) cannot be 1 more than a multiple of 4") :=
  rfl

/-- C1, amended: for every event that is `safeEvent` — body absent, null,
or a string whose base64 decode succeeds whenever the flag is truthy and
whose decoded text fails to parse or parses to an object with a string
(or absent) topic value — `lambda_handler` returns a well-formed envelope
(`Content-Type: application/json` header, JSON-object body) and raises
nothing.  This includes bodies whose base64 decoding yields invalid
UTF-8: the decoder substitutes U+FFFD and the request proceeds. -/
theorem claim1_envelope (env : Env) (ev : Event) (h : safeEvent ev = true) :
    ∃ r, lambda_handler env ev () = .ok r ∧ wellFormed r := by
  obtain ⟨t, ht⟩ := extractedTopic_ok_of_safe ev h
  exact ⟨handleTopic env t, by simp [lambda_handler, ht], handleTopic_wellFormed env t⟩

/-- C1 witness: the event whose base64 body decodes to the lone invalid
byte 0xFF (`"/w=="`) is safe — the decoder replaces it with U+FFFD, JSON
parsing fails, and the handler answers with an envelope. -/
theorem claim1_envelope_witness :
    safeEvent ⟨some (.str "/w=="), some (.bool true)⟩ = true ∧
    ∃ r, lambda_handler env0 ⟨some (.str "/w=="), some (.bool true)⟩ () = .ok r ∧ wellFormed r :=
  ⟨rfl, claim1_envelope env0 ⟨some (.str "/w=="), some (.bool true)⟩ rfl⟩

/-! ### Claim C2 -/

/-- C2, counterexample: the claim predicts that with
`{"blogstopic": "   ", "topic": "Tea"}` the non-blank `"Tea"` is used
(so, under a healthy backend, a 200 response).  The code instead selects
the whitespace-only `"blogstopic"` — it is truthy — strips it to empty
and answers 400, never using `"Tea"`; the same environment and body
`{"topic": "Tea"}` shows what using `"Tea"` would have produced. -/
theorem claim2_counterexample :
    lambda_handler env0 ⟨some (.str "\x7b\"blogstopic\": \"   \", \"topic\": \"Tea\"\x7d"), none⟩ () =
      .ok (_error "Missing required field \x27blogstopic\x27 in request body." 400) ∧
    lambda_handler env0 ⟨some (.str "\x7b\"topic\": \"Tea\"\x7d"), none⟩ () =
      .ok (_ok [("message", .str "Blog generated and saved."),
                ("s3_bucket", .str S3_BUCKET),
                ("s3_key", .str "blogs/Tea_2025-10-12T08-30-00Z.txt"),
                ("length_chars", .int 26),
                ("preview", .str "A short text about coffee.")] 200) :=
  ⟨rfl, rfl⟩

/-- C2, amended: the candidate fields are checked in order `blogstopic`,
`topic`, but the winner is the first *truthy* (for strings: non-empty)
value, decided before any trimming.  `topic` is used when `blogstopic`
is falsy (absent, null, `""`, …); a non-empty `blogstopic` — even
whitespace-only — always wins, and stripping happens afterwards. -/
theorem claim2_precedence (env : Env) (ev : Event) (d : List (String × JsonValue))
    (hp : _parse_event_body ev = .ok (.obj d)) :
    (pyTruthy (dictGet d "blogstopic") = false →
      ∀ t, dictGet d "topic" = .str t → t ≠ "" →
        lambda_handler env ev () = .ok (handleTopic env (pyStrip t))) ∧
    (∀ b, dictGet d "blogstopic" = .str b → b ≠ "" →
      lambda_handler env ev () = .ok (handleTopic env (pyStrip b))) := by
  constructor
  · intro hf t htop ht
    have hc : chosenTopicVal d = .str t := by
      unfold chosenTopicVal pyOr
      rw [if_neg (by rw [hf]; exact Bool.false_ne_true), htop, if_pos]
      simp [pyTruthy, ht]
    unfold lambda_handler extractedTopic
    rw [hp]
    simp only [exceptBind_ok, asDict_obj, hc, asStr_str, exceptMap_ok]
    rfl
  · intro bb hb hbne
    have hc : chosenTopicVal d = .str bb := by
      unfold chosenTopicVal pyOr
      rw [hb, if_pos]
      simp [pyTruthy, hbne]
    unfold lambda_handler extractedTopic
    rw [hp]
    simp only [exceptBind_ok, asDict_obj, hc, asStr_str, exceptMap_ok]
    rfl

/-- C2 witness: with `blogstopic` present but empty (falsy) and
`topic = "Tea"`, the handler proceeds with `"Tea"`. -/
theorem claim2_precedence_witness :
    _parse_event_body ⟨some (.str "\x7b\"blogstopic\": \"\", \"topic\": \"Tea\"\x7d"), none⟩ =
      .ok (.obj [("blogstopic", .str ""), ("topic", .str "Tea")]) ∧
    lambda_handler env0 ⟨some (.str "\x7b\"blogstopic\": \"\", \"topic\": \"Tea\"\x7d"), none⟩ () =
      .ok (handleTopic env0 (pyStrip "Tea")) :=
  ⟨rfl,
    (claim2_precedence env0 ⟨some (.str "\x7b\"blogstopic\": \"\", \"topic\": \"Tea\"\x7d"), none⟩
        [("blogstopic", .str ""), ("topic", .str "Tea")] rfl).1
      rfl "Tea" rfl (by decide)⟩

/-! ### Claim C3 -/

/-- C3, counterexample: for body `{"blogstopic": "Coffee!!"}` with the
backend returning `"A short text about coffee."` and storage succeeding,
the code produces `length_chars = 26` — the text has 26 characters — so
the claimed response with `length_chars = 27` is not the one returned. -/
theorem claim3_counterexample :
    lambda_handler env0 evC3 () = .ok respC3 ∧
    respC3 ≠
      _ok [("message", .str "Blog generated and saved."),
           ("s3_bucket", .str S3_BUCKET),
           ("s3_key", .str "blogs/Coffee_2025-10-12T08-30-00Z.txt"),
           ("length_chars", .int 27),
           ("preview", .str "A short text about coffee.")] 200 :=
  ⟨rfl, by decide⟩

/-- C3, amended: same end-to-end run, with `length_chars = 26` (the
length of the generated text): status 200, `s3_key` of the shape
`blogs/Coffee_<timestamp>.txt`, and `preview` equal to the full text
with no suffix. -/
theorem claim3_end_to_end :
    lambda_handler env0 evC3 () =
      .ok (_ok [("message", .str "Blog generated and saved."),
                ("s3_bucket", .str S3_BUCKET),
                ("s3_key", .str (makeS3Key env0.isalnum "Coffee!!" (formatTs env0.utcnow))),
                ("length_chars", .int ("A short text about coffee." : String).length),
                ("preview", .str "A short text about coffee.")] 200) ∧
    makeS3Key env0.isalnum "Coffee!!" (formatTs env0.utcnow) =
      "blogs/Coffee_" ++ formatTs env0.utcnow ++ ".txt" ∧
    ("A short text about coffee." : String).length = 26 :=
  ⟨rfl, rfl, rfl⟩

/-! ### Claim C4 -/

/-- C4: when the extracted topic strips to empty, the handler answers 400
with the missing-field message, and the result is identical under every
environment — the generation backend and the storage writer are never
consulted on this path (the 400 is produced before either oracle can
influence anything). -/
theorem claim4_blank_topic (env env2 : Env) (ev : Event) (h : extractedTopic ev = .ok "") :
    lambda_handler env ev () =
      .ok (_error "Missing required field \x27blogstopic\x27 in request body." 400) ∧
    lambda_handler env ev () = lambda_handler env2 ev () := by
  constructor
  · unfold lambda_handler
    rw [h]
    rfl
  · unfold lambda_handler
    rw [h]
    rfl

/-- C4 witness: the body `{"blogstopic": "   "}` extracts to a blank
topic; the response is the 400 error and agrees with the run under an
environment whose backends only raise — so neither backend was called. -/
theorem claim4_blank_topic_witness :
    extractedTopic ⟨some (.str "\x7b\"blogstopic\": \"   \"\x7d"), none⟩ = .ok "" ∧
    (lambda_handler env0 ⟨some (.str "\x7b\"blogstopic\": \"   \"\x7d"), none⟩ () =
       .ok (_error "Missing required field \x27blogstopic\x27 in request body." 400) ∧
     lambda_handler env0 ⟨some (.str "\x7b\"blogstopic\": \"   \"\x7d"), none⟩ () =
       lambda_handler envGenFail ⟨some (.str "\x7b\"blogstopic\": \"   \"\x7d"), none⟩ ()) :=
  ⟨rfl, claim4_blank_topic env0 envGenFail ⟨some (.str "\x7b\"blogstopic\": \"   \"\x7d"), none⟩ rfl⟩

/-! ### Claim C5 -/

/-- C5: an absent or null body, and equally a (decoded) body text that
fails to parse as JSON, make `_parse_event_body` return the empty
mapping rather than an error, and the handler then answers 400 with
the missing-field message. -/
theorem claim5_missing_or_malformed (env : Env) (ev : Event)
    (h : (ev.body = none ∨ ev.body = some .null) ∨
         (∃ t, decodedText ev = some t ∧ ∃ m, pyJsonLoads t = .error m)) :
    _parse_event_body ev = .ok (.obj []) ∧
    lambda_handler env ev () =
      .ok (_error "Missing required field \x27blogstopic\x27 in request body." 400) := by
  have hp : _parse_event_body ev = .ok (.obj []) := by
    rcases h with (hb | hb) | ⟨t, hdt, m, hm⟩
    · obtain ⟨b, flag⟩ := ev
      simp only at hb
      rw [hb]
      rfl
    · obtain ⟨b, flag⟩ := ev
      simp only at hb
      rw [hb]
      rfl
    · rw [parse_eq_of_decodedText ev t hdt]
      exact parseBodyText_empty_of_error t m hm
  refine ⟨hp, ?_⟩
  unfold lambda_handler extractedTopic
  rw [hp]
  rfl

/-- C5 witness: the unparseable body `"not json"`. -/
theorem claim5_missing_or_malformed_witness :
    (decodedText ⟨some (.str "not json"), none⟩ = some "not json" ∧
     pyJsonLoads "not json" = .error "Expecting value") ∧
    (_parse_event_body ⟨some (.str "not json"), none⟩ = .ok (.obj []) ∧
     lambda_handler env0 ⟨some (.str "not json"), none⟩ () =
       .ok (_error "Missing required field \x27blogstopic\x27 in request body." 400)) :=
  ⟨⟨rfl, rfl⟩,
    claim5_missing_or_malformed env0 ⟨some (.str "not json"), none⟩
      (Or.inr ⟨"not json", rfl, "Expecting value", rfl⟩)⟩

/-! ### Claim C6 -/

/-- C6: when the backend call succeeds but the response envelope's
`generation` field is missing (or otherwise falsy), empty, or
whitespace-only, `generate_blog` returns the empty string — no exception
— and the handler (on a non-blank topic) answers 502 with
"Model returned empty content.". -/
theorem claim6_empty_generation (env : Env) (topic raw : String)
    (d : List (String × JsonValue))
    (hcall : env.invokeModel (genRequestBody topic) BEDROCK_MODEL_ID
        "application/json" "application/json" = .ok raw)
    (hparse : pyJsonLoads raw = .ok (.obj d))
    (hgen : pyTruthy (dictGet d "generation") = false ∨
            ∃ s, dictGet d "generation" = .str s ∧ pyStrip s = "") :
    generate_blog env topic = .ok "" ∧
    (topic ≠ "" → handleTopic env topic = _error "Model returned empty content." 502) := by
  have hgb : generate_blog env topic = .ok "" := by
    unfold generate_blog
    rw [hcall]
    simp only [exceptBind_ok]
    rw [hparse]
    simp only [exceptBind_ok, asDict_obj]
    rcases hgen with hf | ⟨s, hs, hss⟩
    · have hor : pyOr (dictGet d "generation") (.str "") = .str "" := by
        unfold pyOr
        rw [if_neg (by rw [hf]; exact Bool.false_ne_true)]
      rw [hor]
      simp only [asStr_str, exceptBind_ok, exceptMap_ok]
      rfl
    · by_cases hse : s = ""
      · have hor : pyOr (dictGet d "generation") (.str "") = .str "" := by
          unfold pyOr
          rw [hs, hse, if_neg]
          simp [pyTruthy]
        rw [hor]
        simp only [asStr_str, exceptBind_ok, exceptMap_ok]
        rfl
      · have hor : pyOr (dictGet d "generation") (.str "") = .str s := by
          unfold pyOr
          rw [hs, if_pos]
          simp [pyTruthy, hse]
        rw [hor]
        simp only [asStr_str, exceptBind_ok, exceptMap_ok]
        rw [hss]
        rfl
  refine ⟨hgb, fun ht => ?_⟩
  simp only [handleTopic, if_neg ht, hgb, if_pos rfl]
  rfl

/-- C6 witness: backend envelope `{"generation": "   "}` on topic
`"Tea"`. -/
theorem claim6_empty_generation_witness :
    generate_blog envEmptyGen "Tea" = .ok "" ∧
    handleTopic envEmptyGen "Tea" = _error "Model returned empty content." 502 := by
  have h := claim6_empty_generation envEmptyGen "Tea" "\x7b\"generation\": \"   \"\x7d"
    [("generation", .str "   ")] rfl rfl (Or.inr ⟨"   ", rfl, rfl⟩)
  exact ⟨h.1, h.2 (by decide)⟩

/-! ### Claim C7 -/

/-- C7: each external-call failure is caught at its call site and turned
directly into the 502 error response, with the underlying message
embedded.  First part: the generation call raises an error whose text is
`M` — the response is `{"error": "Error generating blog: M"}` with
status 502, and that message contains `M`.  Second part: generation
succeeded but the storage write raises an error with text `M` — the
response is `{"error": "Failed to save to S3: M"}` with status 502,
again containing `M`. -/
theorem claim7_backend_errors (env : Env) (topic M : String) (e : PyErr) (blogText : String) :
    (topic ≠ "" →
      env.invokeModel (genRequestBody topic) BEDROCK_MODEL_ID
          "application/json" "application/json" = .error e →
      pyStr e = M →
      handleTopic env topic = _error ("Error generating blog: " ++ M) 502 ∧
      containsSub ("Error generating blog: " ++ M) M) ∧
    (topic ≠ "" →
      generate_blog env topic = .ok blogText →
      blogText ≠ "" →
      env.putObject S3_BUCKET (makeS3Key env.isalnum topic (formatTs env.utcnow))
          (utf8Encode blogText)
          "text/plain; charset=utf-8" = .error e →
      pyStr e = M →
      handleTopic env topic = _error ("Failed to save to S3: " ++ M) 502 ∧
      containsSub ("Failed to save to S3: " ++ M) M) := by
  constructor
  · intro ht hcall hm
    have hgb : generate_blog env topic = .error e := by
      unfold generate_blog
      rw [hcall]
      rfl
    refine ⟨?_, "Error generating blog: ", "", by simp⟩
    simp only [handleTopic, if_neg ht, hgb, hm]
  · intro ht hgb hbt hput hm
    have hsv : save_blog_to_s3 env (makeS3Key env.isalnum topic (formatTs env.utcnow))
        blogText = .error e := by
      unfold save_blog_to_s3
      exact hput
    refine ⟨?_, "Failed to save to S3: ", "", by simp⟩
    simp only [handleTopic, if_neg ht, hgb, if_neg hbt, hsv, hm]

/-- C7 witness: under `envGenFail` the generation call raises
"connect timeout" and the handler answers with the 502 wrapping it;
under `envPutFail` generation succeeds but the write raises
"access denied", and the handler answers with the 502 wrapping that. -/
theorem claim7_backend_errors_witness :
    handleTopic envGenFail "Tea" = _error "Error generating blog: connect timeout" 502 ∧
    handleTopic envPutFail "Tea" = _error "Failed to save to S3: access denied" 502 :=
  ⟨((claim7_backend_errors envGenFail "Tea" "connect timeout"
        (.exc "ClientError" "connect timeout") "").1 (by decide) rfl rfl).1,
   ((claim7_backend_errors envPutFail "Tea" "access denied"
        (.exc "ClientError" "access denied") "A short text about coffee.").2
      (by decide) rfl (by decide) rfl rfl).1⟩

/-! ### Claim C8 -/

/-- Characters kept by the sanitizer are never Python whitespace —
provided the runtime classifier never accepts a whitespace character,
which `str.isalnum` (Unicode categories L*/N*) satisfies — so the
`.strip()` on line 111 is a no-op. -/
theorem keep_not_space (isalnum : Char → Bool)
    (hws : ∀ c, isalnum c = true → pyIsSpace c = false) (c : Char)
    (h : (isalnum c || c = '-' || c = '_') = true) : pyIsSpace c = false := by
  simp only [Bool.or_eq_true, decide_eq_true_eq] at h
  rcases h with (ha | hc) | hc
  · exact hws c ha
  · subst hc; decide
  · subst hc; decide

/-- The ASCII restriction of the classifier never accepts whitespace. -/
theorem asciiAlnum_not_space (c : Char) (h : asciiAlnum c = true) : pyIsSpace c = false := by
  simp only [asciiAlnum, Bool.or_eq_true, Bool.and_eq_true, decide_eq_true_eq] at h
  simp only [pyIsSpace, Bool.or_eq_false_iff, Bool.and_eq_false_iff,
    decide_eq_false_iff_not, Bool.not_eq_true, Bool.and_eq_false_imp,
    decide_eq_true_eq]
  omega

/-- The é-extended witness classifier never accepts whitespace. -/
theorem asciiAlnumE_not_space (c : Char) (h : asciiAlnumE c = true) : pyIsSpace c = false := by
  simp only [asciiAlnumE, Bool.or_eq_true, decide_eq_true_eq] at h
  rcases h with ha | hc
  · exact asciiAlnum_not_space c ha
  · subst hc; decide

/-- `dropWhile` is the identity when no element satisfies the predicate. -/
theorem dropWhile_eq_self_of_none (p : Char → Bool) (l : List Char)
    (h : ∀ c ∈ l, p c = false) : l.dropWhile p = l := by
  cases l with
  | nil => rfl
  | cons a l => simp [List.dropWhile_cons, h a (List.mem_cons_self a l)]

/-- `pyStrip` is the identity on whitespace-free strings. -/
theorem pyStrip_eq_self (l : List Char) (h : ∀ c ∈ l, pyIsSpace c = false) :
    pyStrip (String.mk l) = String.mk l := by
  unfold pyStrip
  show String.mk (((l.dropWhile pyIsSpace).reverse.dropWhile pyIsSpace).reverse) = String.mk l
  rw [dropWhile_eq_self_of_none _ _ h, dropWhile_eq_self_of_none, List.reverse_reverse]
  intro c hc
  exact h c (List.mem_reverse.mp hc)

/-- The source's sanitizer (filter, redundant strip, `or "blog"`) agrees
with the claim-side one (filter, fallback on empty), for every
classifier that never accepts whitespace. -/
theorem safeTopic_eq_spec (isalnum : Char → Bool)
    (hws : ∀ c, isalnum c = true → pyIsSpace c = false) (topic : String) :
    safeTopic isalnum topic = specSanitize isalnum topic := by
  unfold safeTopic specSanitize
  have h : ∀ c ∈ topic.data.filter (fun c => isalnum c || c = '-' || c = '_'),
      pyIsSpace c = false := by
    intro c hc
    exact keep_not_space isalnum hws c ((List.mem_filter.mp hc).2)
  rw [pyStrip_eq_self _ h]
  by_cases he : topic.data.filter (fun c => isalnum c || c = '-' || c = '_') = []
  · rw [he, if_pos rfl, if_pos rfl]
  · rw [if_neg he,
      if_neg (fun hc => he (show _ = ([] : List Char) from congrArg String.data hc))]

/-- Each `digitChar` is a decimal digit. -/
theorem digitChar_isDigit (n : Nat) : isDigitChar (digitChar n) = true := by
  unfold digitChar
  split <;> rfl

/-- C8: for every `str.isalnum` classifier that never accepts a
whitespace character — Python's Unicode-aware one never does — every
topic string and every clock value within `datetime`'s ranges: the
storage key is `blogs/{sanitized}_{timestamp}.txt`, where the sanitizer
keeps exactly the characters the classifier accepts together with
hyphen and underscore, dropping all others (whitespace included) with
no truncation, falling back to the literal `"blog"` when nothing
survives; and the timestamp has the shape `YYYY-MM-DDTHH-MM-SSZ`. -/
theorem claim8_s3_key (isalnum : Char → Bool) (topic : String) (dt : PyDateTime)
    (hws : ∀ c, isalnum c = true → pyIsSpace c = false)
    (hy : dt.year ≤ 9999) (hmo : dt.month ≤ 99) (hd : dt.day ≤ 99)
    (hh : dt.hour ≤ 99) (hmi : dt.minute ≤ 99) (hs : dt.second ≤ 99) :
    makeS3Key isalnum topic (formatTs dt) =
      "blogs/" ++ specSanitize isalnum topic ++ "_" ++ formatTs dt ++ ".txt" ∧
    safeTopic isalnum topic = specSanitize isalnum topic ∧
    isTsFormat (formatTs dt) = true := by
  have hts : formatTs dt = String.mk
      [digitChar (dt.year / 1000), digitChar (dt.year / 100), digitChar (dt.year / 10),
       digitChar dt.year, '-', digitChar (dt.month / 10), digitChar dt.month, '-',
       digitChar (dt.day / 10), digitChar dt.day, 'T', digitChar (dt.hour / 10),
       digitChar dt.hour, '-', digitChar (dt.minute / 10), digitChar dt.minute, '-',
       digitChar (dt.second / 10), digitChar dt.second, 'Z'] := by
    unfold formatTs pad4 pad2
    rw [if_pos hy, if_pos hmo, if_pos hd, if_pos hh, if_pos hmi, if_pos hs]
    rfl
  refine ⟨?_, safeTopic_eq_spec isalnum hws topic, ?_⟩
  · unfold makeS3Key
    rw [safeTopic_eq_spec isalnum hws topic]
  · rw [hts]
    unfold isTsFormat
    simp [digitChar_isDigit]

/-- C8 witness, instantiated twice: at the ASCII restriction on topic
`"Hi there!"` (space and `!` dropped, no truncation), and at the
é-extended classifier on topic `"é!!"`, where the non-ASCII alphanumeric
é is kept — as the Unicode-aware `str.isalnum` keeps it — rather than
falling back to `"blog"`. -/
theorem claim8_s3_key_witness :
    (makeS3Key asciiAlnum "Hi there!" (formatTs dt0) =
       "blogs/" ++ specSanitize asciiAlnum "Hi there!" ++ "_" ++ formatTs dt0 ++ ".txt" ∧
     safeTopic asciiAlnum "Hi there!" = specSanitize asciiAlnum "Hi there!" ∧
     isTsFormat (formatTs dt0) = true) ∧
    (makeS3Key asciiAlnumE "é!!" (formatTs dt0) =
       "blogs/" ++ specSanitize asciiAlnumE "é!!" ++ "_" ++ formatTs dt0 ++ ".txt" ∧
     safeTopic asciiAlnumE "é!!" = specSanitize asciiAlnumE "é!!" ∧
     isTsFormat (formatTs dt0) = true) ∧
    specSanitize asciiAlnum "Hi there!" = "Hithere" ∧
    specSanitize asciiAlnumE "é!!" = "é" ∧
    specSanitize asciiAlnum "!!!" = "blog" ∧
    formatTs dt0 = "2025-10-12T08-30-00Z" :=
  ⟨claim8_s3_key asciiAlnum "Hi there!" dt0 asciiAlnum_not_space (by decide) (by decide)
      (by decide) (by decide) (by decide) (by decide),
   claim8_s3_key asciiAlnumE "é!!" dt0 asciiAlnumE_not_space (by decide) (by decide)
      (by decide) (by decide) (by decide) (by decide),
   rfl, rfl, rfl, rfl⟩

/-! ### Claim C9 -/

/-- C9: the preview is the full generated text when its length is at most
200 characters, and the first 200 characters followed by `"..."` when it
is longer. -/
theorem claim9_preview (s : String) :
    (s.length ≤ 200 → previewOf s = s) ∧
    (200 < s.length → previewOf s = pySlice s 200 ++ "...") := by
  constructor
  · intro h
    unfold previewOf
    rw [if_neg (by omega)]
    unfold pySlice
    have hlen : s.data.length ≤ 200 := h
    rw [List.take_of_length_le hlen]
    cases s with
    | mk l =>
      show String.mk (l ++ []) = String.mk l
      rw [List.append_nil]
  · intro h
    unfold previewOf
    rw [if_pos h]

set_option maxRecDepth 4000 in
/-- C9 witness: a 2-character text is previewed whole; a 201-character
text is cut at 200 characters and suffixed. -/
theorem claim9_preview_witness :
    (("hi" : String).length ≤ 200 ∧ previewOf "hi" = "hi") ∧
    (200 < (String.mk (List.replicate 201 'a')).length ∧
     previewOf (String.mk (List.replicate 201 'a')) =
       pySlice (String.mk (List.replicate 201 'a')) 200 ++ "...") :=
  ⟨⟨by decide, (claim9_preview "hi").1 (by decide)⟩,
   ⟨by decide, (claim9_preview (String.mk (List.replicate 201 'a'))).2 (by decide)⟩⟩

/-! ### Claim C10 -/

/-- C10: base64 decoding is triggered by Python truthiness of the
`isBase64Encoded` value, not by it being the boolean `true`: when the
field is absent, null, `false`, `0`, or `""`, the body string is parsed
directly; for every truthy value — including the non-empty string
`"false"` — the body is base64-decoded first. -/
theorem claim10_base64_truthiness (s : String) (v : JsonValue) :
    _parse_event_body ⟨some (.str s), none⟩ = parseBodyText s ∧
    _parse_event_body ⟨some (.str s), some .null⟩ = parseBodyText s ∧
    _parse_event_body ⟨some (.str s), some (.bool false)⟩ = parseBodyText s ∧
    (∀ e : Int, _parse_event_body ⟨some (.str s), some (.num 0 e)⟩ = parseBodyText s) ∧
    _parse_event_body ⟨some (.str s), some (.str "")⟩ = parseBodyText s ∧
    pyTruthy (.str "false") = true ∧
    (pyTruthy v = true → _parse_event_body ⟨some (.str s), some v⟩ = b64ParsePath s) := by
  refine ⟨rfl, rfl, rfl, fun e => rfl, rfl, rfl, fun hv => ?_⟩
  show (if pyTruthyOpt (some v) = true then b64ParsePath s else parseBodyText s) = b64ParsePath s
  rw [if_pos (show pyTruthyOpt (some v) = true from hv)]

/-- C10 witness: with `isBase64Encoded = "false"` (truthy) and body
`"WzFd"` — the base64 encoding of `"[1]"` — the handler decodes first
and parses `[1]`, whereas direct parsing of `"WzFd"` would have failed
to the empty mapping. -/
theorem claim10_base64_truthiness_witness :
    pyTruthy (.str "false") = true ∧
    _parse_event_body ⟨some (.str "WzFd"), some (.str "false")⟩ = b64ParsePath "WzFd" ∧
    b64ParsePath "WzFd" = .ok (.arr [.num 1 0]) ∧
    parseBodyText "WzFd" = .ok (.obj []) :=
  ⟨rfl,
   (claim10_base64_truthiness "WzFd" (.str "false")).2.2.2.2.2.2 rfl,
   rfl, rfl⟩

end BlogGen
